import Mathlib

/-!
Verification of the memory-test application
(`src/app-toolkit/memory-test-app/app.py`).

The Python source is shallowly embedded: the mutable globals
(`memory_warning_60_sent`, `memory_warning_80_sent`, `memory_warning_90_sent`,
`memory_test_running`, `allocated_memory`) and the locals of the allocation
loop (`iteration`, `last_log_iteration`, `paused_at_60`, `paused_at_80`)
become explicit state records; environment readings (psutil memory stats,
cgroup files, allocation success or failure) become inputs; `send_log` calls
become emitted `Event` values; Python floats are modelled as `ℚ`.
-/

namespace MemApp

/-- Threshold one-shot flags: the globals `memory_warning_60_sent`,
`memory_warning_80_sent`, `memory_warning_90_sent` of `app.py`. -/
structure ThresholdFlags where
  sent60 : Bool
  sent80 : Bool
  sent90 : Bool
  deriving DecidableEq, Repr

/-- Memory statistics as returned by `get_memory_stats()` (a reading of the
process / system environment, treated as an input to the model). -/
structure MemStats where
  process_rss_mb : ℚ
  process_vms_mb : ℚ
  process_percent : ℚ
  system_total_mb : ℚ
  system_available_mb : ℚ
  system_used_mb : ℚ
  system_used_percent : ℚ
  deriving DecidableEq, Repr

/-- Telemetry events: each constructor is one of the `send_log` calls of the
source, carrying the numeric severity and the metadata fields the claims
refer to. -/
inductive Event where
  /-- A threshold-crossing log from `check_memory_thresholds` (severity, level). -/
  | threshold (sev level : ℕ)
  /-- A "PAUSED: Reached L% container memory threshold" log from the loop. -/
  | paused (sev level iter chunks : ℕ)
  /-- The "Starting gradual memory consumption test" log. -/
  | started
  /-- A per-iteration progress log from the allocation loop. -/
  | progress (sev iter : ℕ)
  /-- The "MemoryError caught - OOM occurred!" log (severity 6). -/
  | allocFailed (sev iter chunks : ℕ) (stats : MemStats)
  /-- The "OSError during memory allocation" log (severity 6). -/
  | osFailed (sev iter chunks : ℕ) (stats : MemStats)
  /-- The "Unexpected error during memory test" log (severity 5). -/
  | unexpectedErr (sev iter chunks : ℕ) (stats : MemStats)
  /-- The final "Memory test completed or stopped" log. -/
  | completed (reason : String) (iters chunks : ℕ)
  deriving DecidableEq, Repr

/-- Container usage percentage as computed in `check_memory_thresholds`:
`(process_rss_mb / container_limit_mb) * 100`. -/
def container_memory_percent (process_rss_mb container_limit_mb : ℚ) : ℚ :=
  process_rss_mb / container_limit_mb * 100

/-- Embedding of `check_memory_thresholds` (app.py lines 222-285), acting on
the three warning flags, given the container usage percentage.  The three
fire blocks run in source order, then the hysteresis reset block. -/
def check_memory_thresholds (f : ThresholdFlags) (pct : ℚ) :
    ThresholdFlags × List Event :=
  let f1 := if 60 ≤ pct ∧ f.sent60 = false then { f with sent60 := true } else f
  let e1 := if 60 ≤ pct ∧ f.sent60 = false then [Event.threshold 3 60] else []
  let f2 := if 80 ≤ pct ∧ f1.sent80 = false then { f1 with sent80 := true } else f1
  let e2 := if 80 ≤ pct ∧ f1.sent80 = false then [Event.threshold 4 80] else []
  let f3 := if 90 ≤ pct ∧ f2.sent90 = false then { f2 with sent90 := true } else f2
  let e3 := if 90 ≤ pct ∧ f2.sent90 = false then [Event.threshold 5 90] else []
  let f4 :=
    if pct < 55 then { f3 with sent60 := false, sent80 := false, sent90 := false }
    else if pct < 75 then { f3 with sent80 := false, sent90 := false }
    else if pct < 85 then { f3 with sent90 := false }
    else f3
  (f4, e1 ++ e2 ++ e3)

/-- Feed a sequence of usage percentages through `check_memory_thresholds`,
collecting the per-reading event lists. -/
def runThresholds : ThresholdFlags → List ℚ → ThresholdFlags × List (List Event)
  | f, [] => (f, [])
  | f, p :: ps =>
    let r := check_memory_thresholds f p
    let rest := runThresholds r.1 ps
    (rest.1, r.2 :: rest.2)

/-- Full characterisation of one `check_memory_thresholds` step: the emitted
events are exactly the qualifying crossings, and the post-state is given by
the fire results filtered through the hysteresis reset table. -/
lemma check_memory_thresholds_eq (f : ThresholdFlags) (pct : ℚ) :
    check_memory_thresholds f pct =
      (if pct < 55 then ⟨false, false, false⟩
       else if pct < 75 then ⟨f.sent60 || decide (60 ≤ pct), false, false⟩
       else if pct < 85 then
         ⟨f.sent60 || decide (60 ≤ pct), f.sent80 || decide (80 ≤ pct), false⟩
       else
         ⟨f.sent60 || decide (60 ≤ pct), f.sent80 || decide (80 ≤ pct),
          f.sent90 || decide (90 ≤ pct)⟩,
       (if 60 ≤ pct ∧ f.sent60 = false then [Event.threshold 3 60] else []) ++
       (if 80 ≤ pct ∧ f.sent80 = false then [Event.threshold 4 80] else []) ++
       (if 90 ≤ pct ∧ f.sent90 = false then [Event.threshold 5 90] else [])) := by
  obtain ⟨s60, s80, s90⟩ := f
  by_cases h60 : (60 : ℚ) ≤ pct <;>
  by_cases h80 : (80 : ℚ) ≤ pct <;>
  by_cases h90 : (90 : ℚ) ≤ pct <;>
  by_cases h55 : pct < 55 <;>
  by_cases h75 : pct < 75 <;>
  by_cases h85 : pct < 85 <;>
  first
    | (exfalso; linarith)
    | (cases s60 <;> cases s80 <;> cases s90 <;>
        simp [check_memory_thresholds, h60, h80, h90, h55, h75, h85])

/-- Events of one `check_memory_thresholds` step, read off from the full
characterisation. -/
lemma check_memory_thresholds_snd (f : ThresholdFlags) (pct : ℚ) :
    (check_memory_thresholds f pct).2 =
      (if 60 ≤ pct ∧ f.sent60 = false then [Event.threshold 3 60] else []) ++
      (if 80 ≤ pct ∧ f.sent80 = false then [Event.threshold 4 80] else []) ++
      (if 90 ≤ pct ∧ f.sent90 = false then [Event.threshold 5 90] else []) := by
  rw [check_memory_thresholds_eq]

/-- Claim C1: for every sequence of `used_pct` readings fed to
`check_memory_thresholds`, each threshold flag L ∈ {60, 80, 90} transitions
NotSent → Sent only when `used_pct ≥ L` and it is not already Sent, fires at
most once until reset, and is reset only per the hysteresis table
(`pct < 55` resets all three; `55 ≤ pct < 75` resets 80 and 90;
`75 ≤ pct < 85` resets 90 only; `pct ≥ 85` resets nothing); and the reading
sequence [50, 61, 82, 91, 70, 52] emits exactly the sent-events at indices
1 (60), 2 (80), 3 (90), with all three flags NotSent after index 5. -/
theorem C1_threshold_hysteresis :
    (∀ (f : ThresholdFlags) (pct : ℚ),
      (Event.threshold 3 60 ∈ (check_memory_thresholds f pct).2 ↔
        f.sent60 = false ∧ 60 ≤ pct) ∧
      (Event.threshold 4 80 ∈ (check_memory_thresholds f pct).2 ↔
        f.sent80 = false ∧ 80 ≤ pct) ∧
      (Event.threshold 5 90 ∈ (check_memory_thresholds f pct).2 ↔
        f.sent90 = false ∧ 90 ≤ pct)) ∧
    (∀ (f : ThresholdFlags) (pct : ℚ),
      (f.sent60 = false → (check_memory_thresholds f pct).1.sent60 = true → 60 ≤ pct) ∧
      (f.sent80 = false → (check_memory_thresholds f pct).1.sent80 = true → 80 ≤ pct) ∧
      (f.sent90 = false → (check_memory_thresholds f pct).1.sent90 = true → 90 ≤ pct)) ∧
    (∀ (f : ThresholdFlags) (pct : ℚ),
      (pct < 55 → (check_memory_thresholds f pct).1 = ⟨false, false, false⟩) ∧
      (55 ≤ pct → pct < 75 →
        (check_memory_thresholds f pct).1 =
          ⟨f.sent60 || decide (60 ≤ pct), false, false⟩) ∧
      (75 ≤ pct → pct < 85 →
        (check_memory_thresholds f pct).1 =
          ⟨f.sent60 || decide (60 ≤ pct), f.sent80 || decide (80 ≤ pct), false⟩) ∧
      (85 ≤ pct →
        (check_memory_thresholds f pct).1 =
          ⟨f.sent60 || decide (60 ≤ pct), f.sent80 || decide (80 ≤ pct),
           f.sent90 || decide (90 ≤ pct)⟩)) ∧
    runThresholds ⟨false, false, false⟩ [50, 61, 82, 91, 70, 52] =
      (⟨false, false, false⟩,
       [[], [Event.threshold 3 60], [Event.threshold 4 80],
        [Event.threshold 5 90], [], []]) := by
  refine ⟨fun f pct => ?_, fun f pct => ?_, fun f pct => ?_, by decide⟩
  · rw [check_memory_thresholds_snd]
    refine ⟨?_, ?_, ?_⟩ <;> split_ifs <;> simp_all <;>
      exact fun hf => not_le.mp fun hle => by simp_all
  · rw [check_memory_thresholds_eq]
    refine ⟨?_, ?_, ?_⟩ <;> intro h h' <;> split_ifs at h' <;> simp_all
  · rw [check_memory_thresholds_eq]
    refine ⟨fun h => ?_, fun h h' => ?_, fun h h' => ?_, fun h => ?_⟩
    · rw [if_pos h]
    · rw [if_neg (by linarith), if_pos h']
    · rw [if_neg (by linarith), if_neg (by linarith), if_pos h']
    · rw [if_neg (by linarith), if_neg (by linarith), if_neg (by linarith)]

/-- Witness for C1: a concrete instantiation of the hypothesis-bearing parts
at flags ⟨false, false, false⟩ and pct = 61. -/
theorem C1_threshold_hysteresis_witness :
    ((⟨false, false, false⟩ : ThresholdFlags).sent60 = false ∧
      (55 : ℚ) ≤ 61 ∧ (61 : ℚ) < 75) ∧
    (check_memory_thresholds ⟨false, false, false⟩ 61).1 =
      ⟨(false : Bool) || decide ((60 : ℚ) ≤ 61), false, false⟩ :=
  ⟨by decide, (C1_threshold_hysteresis.2.2.1 ⟨false, false, false⟩ 61).2.1
    (by norm_num) (by norm_num)⟩

/-- Combined mutable state: the globals `memory_test_running`,
`allocated_memory` (each entry recorded by its size in bytes) and the warning
flags, together with the locals of `consume_memory_gradually`
(`iteration`, `last_log_iteration`, `paused_at_60`, `paused_at_80`). -/
structure DriverState where
  running : Bool
  ledger : List ℕ
  flags : ThresholdFlags
  iteration : ℕ
  lastLog : ℕ
  paused60 : Bool
  paused80 : Bool
  deriving DecidableEq, Repr

/-- Outcome of the `bytearray(chunk_size)` allocation attempt of one tick:
success, `MemoryError`, `OSError`, or any other exception. -/
inductive AllocOutcome where
  | ok
  | memErr
  | osErr
  | exn
  deriving DecidableEq, Repr

/-- Environment readings consumed by one iteration of the allocation loop:
the memory stats observed inside `check_memory_thresholds`, the container
limit resolved on this tick, the allocation outcome, the stats re-read after
allocation, the stats read inside an exception handler, and whether
`stop_memory_test` ran during this tick's sleep. -/
structure TickInput where
  statsPre : MemStats
  limit : ℚ
  outcome : AllocOutcome
  statsPost : MemStats
  failStats : MemStats
  stopRequest : Bool
  deriving DecidableEq, Repr

/-- Chunk size computed at the top of `consume_memory_gradually`:
`int((container_limit_mb * 0.02) * 1024 * 1024)` (2% of the limit, in
bytes, truncated to an integer; `int` truncates, which for the nonnegative
values arising here is the floor). -/
def chunk_size (container_limit_mb : ℚ) : ℕ :=
  (Int.floor (container_limit_mb * (2 / 100) * (1024 * 1024))).toNat

/-- One iteration of the `while memory_test_running` loop of
`consume_memory_gradually` (app.py lines 559-706): threshold check, the two
pause latches, the allocation attempt with its exception handlers, the
gated progress log, and the externally requested stop observed during the
sleep.  Returns the successor state and the events emitted this tick. -/
def tick (chunkSize : ℕ) (s : DriverState) (inp : TickInput) :
    DriverState × List Event :=
  let iter := s.iteration + 1
  let pct := container_memory_percent inp.statsPre.process_rss_mb inp.limit
  let chk := check_memory_thresholds s.flags pct
  let pause60 := 60 ≤ pct ∧ s.paused60 = false
  let ev60 := if pause60 then [Event.paused 3 60 iter s.ledger.length] else []
  let p60 := s.paused60 || decide pause60
  let pause80 := 80 ≤ pct ∧ s.paused80 = false
  let ev80 := if pause80 then [Event.paused 4 80 iter s.ledger.length] else []
  let p80 := s.paused80 || decide pause80
  match inp.outcome with
  | AllocOutcome.ok =>
    let pctAfter := container_memory_percent inp.statsPost.process_rss_mb inp.limit
    let sev : ℕ :=
      if 95 ≤ pctAfter then 6 else if 90 ≤ pctAfter then 5
      else if 80 ≤ pctAfter then 4 else 3
    let shouldLog := iter % 3 = 0 ∨ 80 ≤ pctAfter ∨ 5 ≤ iter - s.lastLog
    ({ running := s.running && !inp.stopRequest,
       ledger := if inp.stopRequest then [] else s.ledger ++ [chunkSize],
       flags := chk.1,
       iteration := iter,
       lastLog := if shouldLog then iter else s.lastLog,
       paused60 := p60, paused80 := p80 },
     chk.2 ++ ev60 ++ ev80 ++
       (if shouldLog then [Event.progress sev iter] else []))
  | AllocOutcome.memErr =>
    ({ running := false, ledger := s.ledger, flags := chk.1, iteration := iter,
       lastLog := s.lastLog, paused60 := p60, paused80 := p80 },
     chk.2 ++ ev60 ++ ev80 ++
       [Event.allocFailed 6 iter s.ledger.length inp.failStats])
  | AllocOutcome.osErr =>
    ({ running := false, ledger := s.ledger, flags := chk.1, iteration := iter,
       lastLog := s.lastLog, paused60 := p60, paused80 := p80 },
     chk.2 ++ ev60 ++ ev80 ++
       [Event.osFailed 6 iter s.ledger.length inp.failStats])
  | AllocOutcome.exn =>
    ({ running := false, ledger := s.ledger, flags := chk.1, iteration := iter,
       lastLog := s.lastLog, paused60 := p60, paused80 := p80 },
     chk.2 ++ ev60 ++ ev80 ++
       [Event.unexpectedErr 5 iter s.ledger.length inp.failStats])

/-- The "Memory test completed or stopped" log emitted after the loop
(app.py lines 708-721): `reason = "OOM" if not memory_test_running else
"Stopped"`. -/
def finalEvent (s : DriverState) : Event :=
  Event.completed (if s.running = false then "OOM" else "Stopped")
    s.iteration s.ledger.length

/-- The `while memory_test_running` loop itself: while the flag holds, run
ticks drawing one `TickInput` per iteration; once the flag is observed
false, emit the final completion log and return.  An exhausted input list
with the flag still set models a truncated observation of a still-running
loop (no completion log yet). -/
def loopRun (chunkSize : ℕ) : DriverState → List TickInput →
    DriverState × List Event
  | s, [] => if s.running then (s, []) else (s, [finalEvent s])
  | s, inp :: rest =>
    if s.running then
      let r := tick chunkSize s inp
      let r2 := loopRun chunkSize r.1 rest
      (r2.1, r.2 ++ r2.2)
    else (s, [finalEvent s])

/-- State at entry of `consume_memory_gradually`: the loop starts with
`memory_test_running` just set by `start_memory_test`, an `iteration` /
`last_log_iteration` of 0 and both pause latches cleared; the ledger is
empty and the warning flags hold whatever the process accumulated. -/
def initDriver (flags0 : ThresholdFlags) : DriverState :=
  ⟨true, [], flags0, 0, 0, false, false⟩

/-- Embedding of `consume_memory_gradually` (app.py lines 523-721): compute
the chunk size from the container limit, emit the startup log, then run the
allocation loop over the given schedule of environment readings. -/
def consume_memory_gradually (container_limit_mb : ℚ)
    (flags0 : ThresholdFlags) (inputs : List TickInput) :
    DriverState × List Event :=
  let r := loopRun (chunk_size container_limit_mb) (initDriver flags0) inputs
  (r.1, Event.started :: r.2)

/-- Result of the `/start-memory-test` handler. -/
inductive StartResult where
  | alreadyRunning
  | started
  deriving DecidableEq, Repr

/-- Embedding of `start_memory_test` (app.py lines 396-421): reject with the
AlreadyRunning error when the test is running, otherwise set the flag; a
`StartResult.started` result is the spawning of the background
`consume_memory_gradually` thread. -/
def start_memory_test (s : DriverState) : DriverState × StartResult :=
  if s.running then (s, StartResult.alreadyRunning)
  else ({ s with running := true }, StartResult.started)

/-- Result of the `/stop-memory-test` handler. -/
inductive StopResult where
  | notRunning
  | stopped (chunks_freed : ℕ)
  deriving DecidableEq, Repr

/-- Embedding of `stop_memory_test` (app.py lines 423-447): reject with the
NotRunning error when no test is running, otherwise clear the flag, record
the pre-clear ledger length, clear the ledger and report the freed count. -/
def stop_memory_test (s : DriverState) : DriverState × StopResult :=
  if s.running = false then (s, StopResult.notRunning)
  else ({ s with running := false, ledger := [] },
        StopResult.stopped s.ledger.length)

/-- Embedding of the `/` health-check handler `home` (app.py lines 360-378):
it calls `check_memory_thresholds` and reports `memory_test_running` and
`len(allocated_memory)`. -/
def home (s : DriverState) (stats : MemStats) (limit : ℚ) :
    DriverState × List Event × Bool × ℕ :=
  let r := check_memory_thresholds s.flags
    (container_memory_percent stats.process_rss_mb limit)
  ({ s with flags := r.1 }, r.2, s.running, s.ledger.length)

/-- Threshold status block of the `/memory-stats` response. -/
structure ThresholdStatus where
  level : String
  warning_80 : Bool
  warning_90 : Bool
  deriving DecidableEq, Repr

/-- Embedding of the `/memory-stats` handler `memory_stats` (app.py lines
380-394): it calls `check_memory_thresholds` and derives a threshold-status
block from `system_used_percent`. -/
def memory_stats (s : DriverState) (stats : MemStats) (limit : ℚ) :
    DriverState × List Event × ThresholdStatus :=
  let r := check_memory_thresholds s.flags
    (container_memory_percent stats.process_rss_mb limit)
  let mp := stats.system_used_percent
  ({ s with flags := r.1 }, r.2,
   ⟨if mp < 80 then "normal" else if mp < 90 then "warning" else "critical",
    decide (80 ≤ mp), decide (90 ≤ mp)⟩)

/-- Filesystem and environment sources consulted by
`get_container_memory_limit`: contents (as character sequences) of
`/sys/fs/cgroup/memory.max` (when the file exists), of
`/sys/fs/cgroup/memory/memory.limit_in_bytes` (when it exists), and the
`CE_MEMORY` environment variable (when set). -/
structure Env where
  cgroupV2 : Option (List Char)
  cgroupV1 : Option (List Char)
  ceMemory : Option (List Char)
  deriving DecidableEq, Repr

/-- A Python exception escaping a parse inside the resolver's `try` block. -/
inductive ResolveErr where
  | badParse
  deriving DecidableEq, Repr

/-- Python `str.strip()`: drop leading and trailing whitespace. -/
def pyStrip (cs : List Char) : List Char :=
  ((cs.dropWhile Char.isWhitespace).reverse.dropWhile Char.isWhitespace).reverse

/-- Value of a nonempty all-digit character run; `none` for anything else. -/
def digitsVal (cs : List Char) : Option ℕ :=
  if cs = [] then none
  else cs.foldl
    (fun acc c => acc.bind
      (fun n => if c.isDigit then some (n * 10 + (c.toNat - 48)) else none))
    (some 0)

/-- Model of Python `int(str)`: an optional sign followed by digits;
anything else raises `ValueError` (here: `none`). -/
def pyToInt? (cs : List Char) : Option ℤ :=
  match cs with
  | '-' :: rest => (digitsVal rest).map (fun n => -(n : ℤ))
  | '+' :: rest => (digitsVal rest).map (fun n => (n : ℤ))
  | _ => (digitsVal cs).map (fun n => (n : ℤ))

/-- Model of Python `float(str)` restricted to the unsigned decimal forms
relevant here: digits with an optional fractional part after one dot. -/
def pyToFloat? (cs : List Char) : Option ℚ :=
  let t := pyStrip cs
  match t.span (fun c => c != '.') with
  | (a, []) => (digitsVal a).map (fun n => (n : ℚ))
  | (a, _ :: b) =>
    if b.contains '.' then none
    else
      match digitsVal a, digitsVal b with
      | some n, some f => some ((n : ℚ) + (f : ℚ) / (10 : ℚ) ^ b.length)
      | _, _ => none

/-- Third source of `get_container_memory_limit`: the `CE_MEMORY`
environment variable, `float`-parsed. -/
def resolveCE (env : Env) : Except ResolveErr (Option ℚ) :=
  match env.ceMemory with
  | some s =>
    match pyToFloat? s with
    | some q => Except.ok (some q)
    | none => Except.error ResolveErr.badParse
  | none => Except.ok none

/-- Second source of `get_container_memory_limit`: the cgroup-v1 limit
file; values at or above the sentinel 9223372036854771712 mean "no limit
set" and fall through. -/
def resolveV1 (env : Env) : Except ResolveErr (Option ℚ) :=
  match env.cgroupV1 with
  | some content =>
    match pyToInt? (pyStrip content) with
    | some n =>
      if n < 9223372036854771712 then Except.ok (some ((n : ℚ) / (1024 * 1024)))
      else resolveCE env
    | none => Except.error ResolveErr.badParse
  | none => resolveCE env

/-- Body of the `try` block of `get_container_memory_limit` (app.py lines
67-87): cgroup v2 first (the literal "max" means unlimited and falls
through), then cgroup v1, then `CE_MEMORY`; `Except.error` is a Python
exception escaping the block, `Except.ok none` is falling off the end. -/
def resolveBody (env : Env) : Except ResolveErr (Option ℚ) :=
  match env.cgroupV2 with
  | some content =>
    let limit := pyStrip content
    if limit ≠ ['m', 'a', 'x'] then
      match pyToInt? limit with
      | some n => Except.ok (some ((n : ℚ) / (1024 * 1024)))
      | none => Except.error ResolveErr.badParse
    else resolveV1 env
  | none => resolveV1 env

/-- Embedding of `get_container_memory_limit` (app.py lines 65-93): any
exception from the body is caught (a warning is logged) and both the
caught-exception path and the fell-through path return the 1024.0 MB
default. -/
def get_container_memory_limit (env : Env) : ℚ :=
  match resolveBody env with
  | Except.ok (some v) => v
  | Except.ok none => 1024
  | Except.error _ => 1024

/-- Stats reading with the given resident-set megabytes and zeros elsewhere
(used for concrete instantiations). -/
def mkStats (rss : ℚ) : MemStats := ⟨rss, 0, 0, 0, 0, 0, 0⟩

/-- Tick input for a successful allocation with the given pre- and
post-allocation resident sizes and container limit. -/
def okTick (rssPre rssPost limit : ℚ) : TickInput :=
  ⟨mkStats rssPre, limit, AllocOutcome.ok, mkStats rssPost, mkStats 0, false⟩

/-- Recogniser for "PAUSED at 60%" events. -/
def isPaused60 : Event → Bool
  | Event.paused _ 60 _ _ => true
  | _ => false

/-- Recogniser for "PAUSED at 80%" events. -/
def isPaused80 : Event → Bool
  | Event.paused _ 80 _ _ => true
  | _ => false

/-- One tick either leaves the ledger unchanged (failed allocation), appends
exactly one chunk, or clears it on an external stop. -/
lemma tick_ledger_cases (cs : ℕ) (s : DriverState) (inp : TickInput) :
    (tick cs s inp).1.ledger = [] ∨ (tick cs s inp).1.ledger = s.ledger ∨
    (tick cs s inp).1.ledger = s.ledger ++ [cs] := by
  obtain ⟨sp, lim, o, spo, fs, st⟩ := inp
  cases o <;> cases st <;> simp [tick]

/-- Every entry of the ledger after a run was either already present or is
one freshly allocated chunk of the loop's chunk size. -/
lemma loopRun_ledger_mem (cs : ℕ) :
    ∀ (inputs : List TickInput) (s : DriverState) (b : ℕ),
      b ∈ (loopRun cs s inputs).1.ledger → b ∈ s.ledger ∨ b = cs := by
  intro inputs
  induction inputs with
  | nil =>
    intro s b h
    by_cases hr : s.running <;> simp [loopRun, hr] at h <;> exact Or.inl h
  | cons inp rest ih =>
    intro s b h
    by_cases hr : s.running
    · simp only [loopRun, hr, if_pos] at h
      rcases ih (tick cs s inp).1 b h with h' | h'
      · rcases tick_ledger_cases cs s inp with hl | hl | hl <;> rw [hl] at h'
        · simp at h'
        · exact Or.inl h'
        · rcases List.mem_append.mp h' with h'' | h''
          · exact Or.inl h''
          · simp at h''
            exact Or.inr h''
      · exact Or.inr h'
    · simp [loopRun, hr] at h
      exact Or.inl h

/-- Claim C5: `stop()` on a driver that is not Running returns the
NotRunning error and changes no state; on a Running driver it transitions to
Idle, empties the ledger, and returns the pre-clear element count. -/
theorem C5_stop_semantics :
    ∀ s : DriverState,
      (s.running = false → stop_memory_test s = (s, StopResult.notRunning)) ∧
      (s.running = true →
        (stop_memory_test s).1.running = false ∧
        (stop_memory_test s).1.ledger = [] ∧
        (stop_memory_test s).1.flags = s.flags ∧
        (stop_memory_test s).1.iteration = s.iteration ∧
        (stop_memory_test s).2 = StopResult.stopped s.ledger.length) := by
  intro s
  constructor
  · intro h; simp [stop_memory_test, h]
  · intro h; simp [stop_memory_test, h]

/-- Witness for C5 at a concrete Running state holding two chunks. -/
theorem C5_stop_semantics_witness :
    (⟨true, [7, 7], ⟨false, false, false⟩, 0, 0, false, false⟩ :
        DriverState).running = true ∧
    (stop_memory_test
        ⟨true, [7, 7], ⟨false, false, false⟩, 0, 0, false, false⟩).1.ledger = [] ∧
    (stop_memory_test
        ⟨true, [7, 7], ⟨false, false, false⟩, 0, 0, false, false⟩).2 =
      StopResult.stopped 2 :=
  ⟨rfl,
   ((C5_stop_semantics
      ⟨true, [7, 7], ⟨false, false, false⟩, 0, 0, false, false⟩).2 rfl).2.1,
   ((C5_stop_semantics
      ⟨true, [7, 7], ⟨false, false, false⟩, 0, 0, false, false⟩).2 rfl).2.2.2.2⟩

/-- Claim C6: `start()` while Running returns the AlreadyRunning error with
the state untouched and spawns no second allocation loop; `start()` when not
Running sets Running and spawns the loop, whose chunk size is 2% of the
container limit in bytes (truncated to a whole number of bytes, as `int()`
does), and every block the loop ever allocates has that size. -/
theorem C6_start_semantics :
    (∀ s : DriverState, s.running = true →
      start_memory_test s = (s, StartResult.alreadyRunning)) ∧
    (∀ s : DriverState, s.running = false →
      (start_memory_test s).1 = { s with running := true } ∧
      (start_memory_test s).2 = StartResult.started) ∧
    (∀ limit : ℚ, 0 ≤ limit →
      (chunk_size limit : ℚ) ≤ limit * 2 / 100 * (1024 * 1024) ∧
      limit * 2 / 100 * (1024 * 1024) < (chunk_size limit : ℚ) + 1) ∧
    (∀ (limit : ℚ) (f0 : ThresholdFlags) (inputs : List TickInput) (b : ℕ),
      b ∈ (consume_memory_gradually limit f0 inputs).1.ledger →
      b = chunk_size limit) := by
  refine ⟨?_, ?_, ?_, ?_⟩
  · intro s h; simp [start_memory_test, h]
  · intro s h; simp [start_memory_test, h]
  · intro limit hl
    have hx : (0 : ℚ) ≤ limit * (2 / 100) * (1024 * 1024) := by positivity
    have key : ((chunk_size limit : ℚ)) = (⌊limit * (2 / 100) * (1024 * 1024)⌋ : ℚ) := by
      rw [chunk_size]
      exact_mod_cast congrArg (fun z : ℤ => (z : ℚ))
        (Int.toNat_of_nonneg (Int.floor_nonneg.mpr hx))
    have heq : limit * 2 / 100 * (1024 * 1024) =
        limit * (2 / 100) * (1024 * 1024) := by ring
    have h1 := Int.floor_le (limit * (2 / 100) * (1024 * 1024))
    have h2 := Int.lt_floor_add_one (limit * (2 / 100) * (1024 * 1024))
    constructor <;> rw [key, heq] <;> [exact h1; exact h2]
  · intro limit f0 inputs b h
    have := loopRun_ledger_mem (chunk_size limit) inputs (initDriver f0) b h
    simpa [initDriver] using this

/-- Witness for C6: AlreadyRunning at a concrete Running state and the
chunk-size bound at a 1000 MB limit. -/
theorem C6_start_semantics_witness :
    (⟨true, [], ⟨false, false, false⟩, 0, 0, false, false⟩ :
        DriverState).running = true ∧
    start_memory_test ⟨true, [], ⟨false, false, false⟩, 0, 0, false, false⟩ =
      (⟨true, [], ⟨false, false, false⟩, 0, 0, false, false⟩,
       StartResult.alreadyRunning) ∧
    ((0 : ℚ) ≤ 1000 ∧
      (chunk_size 1000 : ℚ) ≤ 1000 * 2 / 100 * (1024 * 1024) ∧
      1000 * 2 / 100 * (1024 * 1024) < (chunk_size 1000 : ℚ) + 1) :=
  ⟨rfl, C6_start_semantics.1 _ rfl,
   by norm_num, (C6_start_semantics.2.2.1 1000 (by norm_num)).1,
   (C6_start_semantics.2.2.1 1000 (by norm_num)).2⟩

/-- Claim C7: the container limit resolver never raises — its embedding is a
total function, every exception of the body is swallowed into the 1024 MB
default, falling through all sources yields the 1024 MB default, and in
particular the empty environment (no v2 file, no v1 file, no override)
resolves to 1024.0. -/
theorem C7_resolver_never_fails :
    (∀ (env : Env) (e : ResolveErr), resolveBody env = Except.error e →
      get_container_memory_limit env = 1024) ∧
    (∀ env : Env, resolveBody env = Except.ok none →
      get_container_memory_limit env = 1024) ∧
    (∀ env : Env, get_container_memory_limit env = 1024 ∨
      ∃ v, resolveBody env = Except.ok (some v) ∧
        get_container_memory_limit env = v) ∧
    get_container_memory_limit ⟨none, none, none⟩ = 1024 := by
  refine ⟨?_, ?_, ?_, rfl⟩
  · intro env e h; simp [get_container_memory_limit, h]
  · intro env h; simp [get_container_memory_limit, h]
  · intro env
    rcases hr : resolveBody env with e | ov
    · left; simp [get_container_memory_limit, hr]
    · rcases ov with _ | v
      · left; simp [get_container_memory_limit, hr]
      · right; exact ⟨v, rfl, by simp [get_container_memory_limit, hr]⟩

/-- Witness for C7 at an environment whose v2 file holds unparsable text. -/
theorem C7_resolver_never_fails_witness :
    resolveBody ⟨some ['g', 'a', 'r', 'b', 'a', 'g', 'e'], none, none⟩ =
      Except.error ResolveErr.badParse ∧
    get_container_memory_limit
      ⟨some ['g', 'a', 'r', 'b', 'a', 'g', 'e'], none, none⟩ = 1024 :=
  ⟨rfl,
   C7_resolver_never_fails.1 ⟨some ['g', 'a', 'r', 'b', 'a', 'g', 'e'], none, none⟩
     ResolveErr.badParse rfl⟩

/-- Counterexample to claim C8: with a v2 file holding unparsable text and a
well-formed v1 file holding 1048576 (one megabyte), the later source is NOT
consulted — the exception from the v2 parse aborts the whole `try` block and
the resolver returns the 1024 default instead of the 1 MB the v1 file
specifies. -/
theorem C8_first_parse_counterexample :
    get_container_memory_limit
      ⟨some ['g', 'a', 'r', 'b', 'a', 'g', 'e'],
       some ['1', '0', '4', '8', '5', '7', '6'], none⟩ = 1024 ∧
    resolveV1
      ⟨some ['g', 'a', 'r', 'b', 'a', 'g', 'e'],
       some ['1', '0', '4', '8', '5', '7', '6'], none⟩ =
      Except.ok (some 1) ∧
    (1024 : ℚ) ≠ 1 := by
  refine ⟨rfl, ?_, by norm_num⟩
  have h : ((1048576 : ℤ) : ℚ) / (1024 * 1024) = 1 := by norm_num
  calc resolveV1 ⟨some ['g', 'a', 'r', 'b', 'a', 'g', 'e'],
         some ['1', '0', '4', '8', '5', '7', '6'], none⟩
      = Except.ok (some (((1048576 : ℤ) : ℚ) / (1024 * 1024))) := rfl
    _ = Except.ok (some 1) := by rw [h]

/-- Claim C8 (amended): the resolver tries v2, v1, the environment override
and the default in order, and the first source that is present and parses
wins; but later sources are consulted only when an earlier source is absent
or skipped via its sentinel ("max" for v2, the huge constant for v1) — a
source that is present and fails to parse aborts resolution to the 1024
default without consulting later sources. -/
theorem C8_resolution_order :
    (∀ (env : Env) (c : List Char) (n : ℤ), env.cgroupV2 = some c →
      pyStrip c ≠ ['m', 'a', 'x'] → pyToInt? (pyStrip c) = some n →
      get_container_memory_limit env = (n : ℚ) / (1024 * 1024)) ∧
    (∀ (env : Env) (c : List Char) (n : ℤ),
      (env.cgroupV2 = none ∨
        ∃ c', env.cgroupV2 = some c' ∧ pyStrip c' = ['m', 'a', 'x']) →
      env.cgroupV1 = some c → pyToInt? (pyStrip c) = some n →
      n < 9223372036854771712 →
      get_container_memory_limit env = (n : ℚ) / (1024 * 1024)) ∧
    (∀ (env : Env) (c : List Char) (q : ℚ),
      env.cgroupV2 = none → env.cgroupV1 = none → env.ceMemory = some c →
      pyToFloat? c = some q → get_container_memory_limit env = q) ∧
    (∀ (env : Env) (c c' : List Char) (n : ℤ) (q : ℚ),
      env.cgroupV2 = none → env.cgroupV1 = some c' →
      pyToInt? (pyStrip c') = some n → ¬ n < 9223372036854771712 →
      env.ceMemory = some c → pyToFloat? c = some q →
      get_container_memory_limit env = q) ∧
    (∀ (env : Env) (c : List Char), env.cgroupV2 = some c →
      pyStrip c ≠ ['m', 'a', 'x'] → pyToInt? (pyStrip c) = none →
      get_container_memory_limit env = 1024) ∧
    (∀ (env : Env) (c : List Char), env.cgroupV2 = none →
      env.cgroupV1 = some c → pyToInt? (pyStrip c) = none →
      get_container_memory_limit env = 1024) := by
  refine ⟨?_, ?_, ?_, ?_, ?_, ?_⟩
  · intro env c n h2 hmax hp
    simp [get_container_memory_limit, resolveBody, h2, hmax, hp]
  · intro env c n h2 h1 hp hs
    rcases h2 with h2 | ⟨c', h2, hmax⟩
    · simp [get_container_memory_limit, resolveBody, resolveV1, h2, h1, hp, hs]
    · simp [get_container_memory_limit, resolveBody, resolveV1, h2, hmax, h1, hp, hs]
  · intro env c q h2 h1 hc hp
    simp [get_container_memory_limit, resolveBody, resolveV1, resolveCE,
      h2, h1, hc, hp]
  · intro env c c' n q h2 h1 hp hs hc hq
    simp [get_container_memory_limit, resolveBody, resolveV1, resolveCE,
      h2, h1, hp, hs, hc, hq]
  · intro env c h2 hmax hp
    simp [get_container_memory_limit, resolveBody, h2, hmax, hp]
  · intro env c h2 h1 hp
    simp [get_container_memory_limit, resolveBody, resolveV1, h2, h1, hp]

/-- Witness for C8 (amended) at an environment whose v2 file parses. -/
theorem C8_resolution_order_witness :
    (pyStrip ['2', '0', '9', '7', '1', '5', '2', '0'] ≠ ['m', 'a', 'x'] ∧
      pyToInt? (pyStrip ['2', '0', '9', '7', '1', '5', '2', '0']) =
        some 20971520) ∧
    get_container_memory_limit
      ⟨some ['2', '0', '9', '7', '1', '5', '2', '0'], none, none⟩ =
      ((20971520 : ℤ) : ℚ) / (1024 * 1024) :=
  ⟨⟨by decide, by decide⟩,
   C8_resolution_order.1
     ⟨some ['2', '0', '9', '7', '1', '5', '2', '0'], none, none⟩
     ['2', '0', '9', '7', '1', '5', '2', '0'] 20971520 rfl
     (by decide) (by decide)⟩

/-- Counterexample to claim C3: the health-check operation does NOT leave
the threshold flags unchanged — at flags all-NotSent and a reading of
700 MB resident against a 1000 MB limit (70% usage), `home` flips the 60%
flag to Sent and fires a threshold crossing event. -/
theorem C3_foreground_counterexample :
    (home ⟨false, [], ⟨false, false, false⟩, 0, 0, false, false⟩
        (mkStats 700) 1000).1.flags ≠ ⟨false, false, false⟩ ∧
    (home ⟨false, [], ⟨false, false, false⟩, 0, 0, false, false⟩
        (mkStats 700) 1000).2.1 ≠ [] := by
  have hpct : container_memory_percent (mkStats 700).process_rss_mb 1000 = 70 := by
    norm_num [container_memory_percent, mkStats]
  constructor <;> simp only [home, hpct] <;> decide

/-- Claim C3 (amended): the foreground status-reporting operations (the
health-check and memory-stats handlers) leave the run flag and the ledger
unchanged and mutate the threshold flags only by invoking the threshold
evaluation step — but through it they CAN fire crossing events and
set or reset the one-shot flags, so the flags are mutated by the foreground
status handlers as well as by the driver's monitoring step. -/
theorem C3_status_endpoints :
    (∀ (s : DriverState) (stats : MemStats) (limit : ℚ),
      (home s stats limit).1.running = s.running ∧
      (home s stats limit).1.ledger = s.ledger ∧
      (home s stats limit).1.flags =
        (check_memory_thresholds s.flags
          (container_memory_percent stats.process_rss_mb limit)).1 ∧
      (home s stats limit).2.1 =
        (check_memory_thresholds s.flags
          (container_memory_percent stats.process_rss_mb limit)).2) ∧
    (∀ (s : DriverState) (stats : MemStats) (limit : ℚ),
      (memory_stats s stats limit).1.running = s.running ∧
      (memory_stats s stats limit).1.ledger = s.ledger ∧
      (memory_stats s stats limit).1.flags =
        (check_memory_thresholds s.flags
          (container_memory_percent stats.process_rss_mb limit)).1 ∧
      (memory_stats s stats limit).2.1 =
        (check_memory_thresholds s.flags
          (container_memory_percent stats.process_rss_mb limit)).2) ∧
    (∃ (s : DriverState) (stats : MemStats) (limit : ℚ),
      s.flags.sent60 = false ∧ (home s stats limit).1.flags.sent60 = true) ∧
    (∃ (s : DriverState) (stats : MemStats) (limit : ℚ),
      s.flags.sent90 = true ∧ (home s stats limit).1.flags.sent90 = false) := by
  have hpct : container_memory_percent (mkStats 700).process_rss_mb 1000 = 70 := by
    norm_num [container_memory_percent, mkStats]
  refine ⟨fun s stats limit => ⟨rfl, rfl, rfl, rfl⟩,
    fun s stats limit => ⟨rfl, rfl, rfl, rfl⟩,
    ⟨⟨false, [], ⟨false, false, false⟩, 0, 0, false, false⟩,
      mkStats 700, 1000, rfl, ?_⟩,
    ⟨⟨false, [], ⟨true, true, true⟩, 0, 0, false, false⟩,
      mkStats 700, 1000, rfl, ?_⟩⟩ <;>
  simp only [home, hpct] <;> decide

/-- Threshold evaluation emits no pause events. -/
lemma countP_paused60_check (f : ThresholdFlags) (pct : ℚ) :
    ((check_memory_thresholds f pct).2).countP isPaused60 = 0 := by
  rw [check_memory_thresholds_snd]; split_ifs <;> rfl

/-- Threshold evaluation emits no pause events (80% recogniser). -/
lemma countP_paused80_check (f : ThresholdFlags) (pct : ℚ) :
    ((check_memory_thresholds f pct).2).countP isPaused80 = 0 := by
  rw [check_memory_thresholds_snd]; split_ifs <;> rfl

/-- The pause-at-60 latch after a tick: set exactly when it was already set
or the pre-allocation usage is at or above 60 — it is never cleared. -/
lemma tick_paused60 (cs : ℕ) (s : DriverState) (inp : TickInput) :
    (tick cs s inp).1.paused60 =
      (s.paused60 ||
        decide (60 ≤ container_memory_percent inp.statsPre.process_rss_mb inp.limit)) := by
  obtain ⟨sp, lim, o, spo, fs, st⟩ := inp
  cases o <;> cases hp : s.paused60 <;> simp [tick, hp]

/-- The pause-at-80 latch after a tick: set exactly when it was already set
or the pre-allocation usage is at or above 80 — it is never cleared. -/
lemma tick_paused80 (cs : ℕ) (s : DriverState) (inp : TickInput) :
    (tick cs s inp).1.paused80 =
      (s.paused80 ||
        decide (80 ≤ container_memory_percent inp.statsPre.process_rss_mb inp.limit)) := by
  obtain ⟨sp, lim, o, spo, fs, st⟩ := inp
  cases o <;> cases hp : s.paused80 <;> simp [tick, hp]

/-- A tick emits one pause-at-60 event when the latch fires, none
otherwise. -/
lemma tick_countP_paused60 (cs : ℕ) (s : DriverState) (inp : TickInput) :
    ((tick cs s inp).2).countP isPaused60 =
      if 60 ≤ container_memory_percent inp.statsPre.process_rss_mb inp.limit ∧
          s.paused60 = false
      then 1 else 0 := by
  obtain ⟨sp, lim, o, spo, fs, st⟩ := inp
  cases o <;>
    simp only [tick, List.countP_append, countP_paused60_check] <;>
    split_ifs <;> simp_all [isPaused60, List.countP_cons]

/-- A tick emits one pause-at-80 event when the latch fires, none
otherwise. -/
lemma tick_countP_paused80 (cs : ℕ) (s : DriverState) (inp : TickInput) :
    ((tick cs s inp).2).countP isPaused80 =
      if 80 ≤ container_memory_percent inp.statsPre.process_rss_mb inp.limit ∧
          s.paused80 = false
      then 1 else 0 := by
  obtain ⟨sp, lim, o, spo, fs, st⟩ := inp
  cases o <;>
    simp only [tick, List.countP_append, countP_paused80_check] <;>
    split_ifs <;> simp_all [isPaused80, List.countP_cons]

/-- A run started with the pause-at-60 latch already set never emits another
pause-at-60 event. -/
lemma loopRun_countP_paused60_zero (cs : ℕ) :
    ∀ (inputs : List TickInput) (s : DriverState), s.paused60 = true →
      ((loopRun cs s inputs).2).countP isPaused60 = 0 := by
  intro inputs
  induction inputs with
  | nil =>
    intro s h
    by_cases hr : s.running <;> simp [loopRun, hr, finalEvent, isPaused60]
  | cons inp rest ih =>
    intro s h
    by_cases hr : s.running
    · have hlatch : (tick cs s inp).1.paused60 = true := by
        rw [tick_paused60, h]; rfl
      have hz : ((tick cs s inp).2).countP isPaused60 = 0 := by
        rw [tick_countP_paused60, if_neg]; simp [h]
      simp [loopRun, hr, List.countP_append, hz, ih _ hlatch]
    · simp [loopRun, hr, finalEvent, isPaused60]

/-- A run started with the pause-at-80 latch already set never emits another
pause-at-80 event. -/
lemma loopRun_countP_paused80_zero (cs : ℕ) :
    ∀ (inputs : List TickInput) (s : DriverState), s.paused80 = true →
      ((loopRun cs s inputs).2).countP isPaused80 = 0 := by
  intro inputs
  induction inputs with
  | nil =>
    intro s h
    by_cases hr : s.running <;> simp [loopRun, hr, finalEvent, isPaused80]
  | cons inp rest ih =>
    intro s h
    by_cases hr : s.running
    · have hlatch : (tick cs s inp).1.paused80 = true := by
        rw [tick_paused80, h]; rfl
      have hz : ((tick cs s inp).2).countP isPaused80 = 0 := by
        rw [tick_countP_paused80, if_neg]; simp [h]
      simp [loopRun, hr, List.countP_append, hz, ih _ hlatch]
    · simp [loopRun, hr, finalEvent, isPaused80]

/-- Any run emits at most one pause-at-60 event. -/
lemma loopRun_countP_paused60_le_one (cs : ℕ) :
    ∀ (inputs : List TickInput) (s : DriverState),
      ((loopRun cs s inputs).2).countP isPaused60 ≤ 1 := by
  intro inputs
  induction inputs with
  | nil =>
    intro s
    by_cases hr : s.running <;> simp [loopRun, hr, finalEvent, isPaused60]
  | cons inp rest ih =>
    intro s
    by_cases hr : s.running
    · by_cases hfire :
        60 ≤ container_memory_percent inp.statsPre.process_rss_mb inp.limit ∧
          s.paused60 = false
      · have hlatch : (tick cs s inp).1.paused60 = true := by
          rw [tick_paused60, hfire.2]; simp [hfire.1]
        have hz := loopRun_countP_paused60_zero cs rest (tick cs s inp).1 hlatch
        have hc : ((tick cs s inp).2).countP isPaused60 = 1 := by
          rw [tick_countP_paused60, if_pos hfire]
        simp [loopRun, hr, List.countP_append, hc, hz]
      · have hc : ((tick cs s inp).2).countP isPaused60 = 0 := by
          rw [tick_countP_paused60, if_neg hfire]
        simpa [loopRun, hr, List.countP_append, hc] using ih (tick cs s inp).1
    · simp [loopRun, hr, finalEvent, isPaused60]

/-- Any run emits at most one pause-at-80 event. -/
lemma loopRun_countP_paused80_le_one (cs : ℕ) :
    ∀ (inputs : List TickInput) (s : DriverState),
      ((loopRun cs s inputs).2).countP isPaused80 ≤ 1 := by
  intro inputs
  induction inputs with
  | nil =>
    intro s
    by_cases hr : s.running <;> simp [loopRun, hr, finalEvent, isPaused80]
  | cons inp rest ih =>
    intro s
    by_cases hr : s.running
    · by_cases hfire :
        80 ≤ container_memory_percent inp.statsPre.process_rss_mb inp.limit ∧
          s.paused80 = false
      · have hlatch : (tick cs s inp).1.paused80 = true := by
          rw [tick_paused80, hfire.2]; simp [hfire.1]
        have hz := loopRun_countP_paused80_zero cs rest (tick cs s inp).1 hlatch
        have hc : ((tick cs s inp).2).countP isPaused80 = 1 := by
          rw [tick_countP_paused80, if_pos hfire]
        simp [loopRun, hr, List.countP_append, hc, hz]
      · have hc : ((tick cs s inp).2).countP isPaused80 = 0 := by
          rw [tick_countP_paused80, if_neg hfire]
        simpa [loopRun, hr, List.countP_append, hc] using ih (tick cs s inp).1
    · simp [loopRun, hr, finalEvent, isPaused80]

/-- Counterexample to claim C2: a run whose usage reaches 60, drops to 50
(below the 55 band, which resets all three threshold flags), and reaches 60
again while the loop is still Running emits only ONE pause-at-60
notification — the pause latch is a loop-local one-shot and is not reset by
the hysteresis schedule, so the driver does not pause a second time. -/
theorem C2_pause_latch_counterexample :
    ((consume_memory_gradually 100 ⟨false, false, false⟩
        [okTick 60 60 100, okTick 50 50 100, okTick 60 60 100]).2).countP
      isPaused60 = 1 ∧
    (consume_memory_gradually 100 ⟨false, false, false⟩
        [okTick 60 60 100, okTick 50 50 100, okTick 60 60 100]).1.running =
      true ∧
    ¬ 2 ≤ ((consume_memory_gradually 100 ⟨false, false, false⟩
        [okTick 60 60 100, okTick 50 50 100, okTick 60 60 100]).2).countP
      isPaused60 := by
  have h60 : container_memory_percent (mkStats 60).process_rss_mb 100 = 60 := by
    norm_num [container_memory_percent, mkStats]
  have h50 : container_memory_percent (mkStats 50).process_rss_mb 100 = 50 := by
    norm_num [container_memory_percent, mkStats]
  refine ⟨?_, ?_, ?_⟩ <;>
    simp only [consume_memory_gradually, loopRun, tick, okTick, initDriver,
      h60, h50] <;>
    norm_num [check_memory_thresholds, List.countP_cons, isPaused60]

/-- Claim C2 (amended): the two pause latches are NOT tied to the hysteresis
reset schedule — each is a loop-local one-shot, monotone for the whole run
(set exactly when already set or the current usage is at or above its
line), a run entered with a latch set emits no further pause at that level,
and every run emits at most one pause notification per level no matter how
usage oscillates. -/
theorem C2_pause_latches_one_shot :
    (∀ (cs : ℕ) (s : DriverState) (inp : TickInput),
      (tick cs s inp).1.paused60 =
        (s.paused60 ||
          decide (60 ≤ container_memory_percent inp.statsPre.process_rss_mb inp.limit)) ∧
      (tick cs s inp).1.paused80 =
        (s.paused80 ||
          decide (80 ≤ container_memory_percent inp.statsPre.process_rss_mb inp.limit))) ∧
    (∀ (cs : ℕ) (s : DriverState) (inputs : List TickInput),
      s.paused60 = true →
      ((loopRun cs s inputs).2).countP isPaused60 = 0) ∧
    (∀ (cs : ℕ) (s : DriverState) (inputs : List TickInput),
      s.paused80 = true →
      ((loopRun cs s inputs).2).countP isPaused80 = 0) ∧
    (∀ (cs : ℕ) (s : DriverState) (inputs : List TickInput),
      ((loopRun cs s inputs).2).countP isPaused60 ≤ 1 ∧
      ((loopRun cs s inputs).2).countP isPaused80 ≤ 1) :=
  ⟨fun cs s inp => ⟨tick_paused60 cs s inp, tick_paused80 cs s inp⟩,
   fun cs s inputs h => loopRun_countP_paused60_zero cs inputs s h,
   fun cs s inputs h => loopRun_countP_paused80_zero cs inputs s h,
   fun cs s inputs =>
     ⟨loopRun_countP_paused60_le_one cs inputs s,
      loopRun_countP_paused80_le_one cs inputs s⟩⟩

/-- Witness for C2 (amended): a run entered with the pause-at-60 latch set
emits no pause-at-60 event. -/
theorem C2_pause_latches_one_shot_witness :
    (⟨true, [], ⟨false, false, false⟩, 0, 0, true, false⟩ :
        DriverState).paused60 = true ∧
    ((loopRun 5 ⟨true, [], ⟨false, false, false⟩, 0, 0, true, false⟩
        [okTick 60 60 100]).2).countP isPaused60 = 0 :=
  ⟨rfl,
   C2_pause_latches_one_shot.2.1 5
     ⟨true, [], ⟨false, false, false⟩, 0, 0, true, false⟩
     [okTick 60 60 100] rfl⟩

/-- A loop whose run flag is already clear performs no tick: it emits the
final completion log and returns at once. -/
lemma loopRun_not_running (cs : ℕ) (s : DriverState) (inputs : List TickInput)
    (h : s.running = false) : loopRun cs s inputs = (s, [finalEvent s]) := by
  cases inputs <;> simp [loopRun, h]

/-- Claim C4: when the per-tick block allocation fails with resource
exhaustion (`MemoryError`), the tick emits the severity-6 notification
carrying the iteration count, the ledger size and the handler's memory
stats, clears the run flag so the loop ends (the remaining schedule only
produces the final completion log, whose reason is OOM), and leaves the
ledger exactly as it was; moreover no tick without an external stop ever
removes ledger entries — the ledger shrinks only via an explicit stop. -/
theorem C4_allocation_failure :
    ∀ (cs : ℕ) (s : DriverState) (inp : TickInput) (rest : List TickInput),
      s.running = true → inp.outcome = AllocOutcome.memErr →
      (tick cs s inp).1.running = false ∧
      (tick cs s inp).1.ledger = s.ledger ∧
      Event.allocFailed 6 (s.iteration + 1) s.ledger.length inp.failStats ∈
        (tick cs s inp).2 ∧
      (loopRun cs (tick cs s inp).1 rest).1.ledger = s.ledger ∧
      (loopRun cs (tick cs s inp).1 rest).2 = [finalEvent (tick cs s inp).1] ∧
      finalEvent (tick cs s inp).1 =
        Event.completed "OOM" (s.iteration + 1) s.ledger.length ∧
      (∀ (s' : DriverState) (inp' : TickInput), inp'.stopRequest = false →
        (tick cs s' inp').1.ledger = s'.ledger ∨
        (tick cs s' inp').1.ledger = s'.ledger ++ [cs]) := by
  intro cs s inp rest hr ho
  obtain ⟨sp, lim, o, spo, fs, st⟩ := inp
  simp only at ho
  subst ho
  have hrun : (tick cs s ⟨sp, lim, AllocOutcome.memErr, spo, fs, st⟩).1.running = false := rfl
  have hled : (tick cs s ⟨sp, lim, AllocOutcome.memErr, spo, fs, st⟩).1.ledger = s.ledger := rfl
  refine ⟨hrun, hled, ?_, ?_, ?_, ?_, ?_⟩
  · simp [tick, List.mem_append]
  · rw [loopRun_not_running cs _ rest hrun, hled]
  · rw [loopRun_not_running cs _ rest hrun]
  · simp [finalEvent, hrun, hled, tick]
  · intro s' inp' hst
    obtain ⟨sp', lim', o', spo', fs', st'⟩ := inp'
    simp only at hst
    subst hst
    cases o' <;> simp [tick]

/-- Witness for C4 at a concrete running state failing its first
allocation. -/
theorem C4_allocation_failure_witness :
    (initDriver ⟨false, false, false⟩).running = true ∧
    (⟨mkStats 50, 100, AllocOutcome.memErr, mkStats 0, mkStats 99,
        false⟩ : TickInput).outcome = AllocOutcome.memErr ∧
    Event.allocFailed 6 1 0 (mkStats 99) ∈
      (tick 5 (initDriver ⟨false, false, false⟩)
        ⟨mkStats 50, 100, AllocOutcome.memErr, mkStats 0, mkStats 99,
         false⟩).2 :=
  ⟨rfl, rfl,
   (C4_allocation_failure 5 (initDriver ⟨false, false, false⟩)
     ⟨mkStats 50, 100, AllocOutcome.memErr, mkStats 0, mkStats 99, false⟩
     [] rfl rfl).2.2.1⟩

/-- Invariant of the allocation loop's logging bookkeeping: the last logged
iteration is no later than the current one, and no iteration since it is a
multiple of 3 (a multiple of 3 always logs and refreshes `last_log_iteration`). -/
def LogInv (s : DriverState) : Prop :=
  s.lastLog ≤ s.iteration ∧
  ∀ j, s.lastLog < j → j ≤ s.iteration → j % 3 ≠ 0

/-- Under the logging invariant the gap since the last emission is at most
two iterations (three consecutive iterations always contain a multiple of
3). -/
lemma LogInv_gap {s : DriverState} (h : LogInv s) :
    s.iteration - s.lastLog ≤ 2 := by
  rcases h with ⟨h1, h2⟩
  by_contra hc
  have ha := h2 (s.lastLog + 1) (by omega) (by omega)
  have hb := h2 (s.lastLog + 2) (by omega) (by omega)
  have hd := h2 (s.lastLog + 3) (by omega) (by omega)
  omega

/-- Threshold evaluation emits no progress events. -/
lemma progress_notin_check (f : ThresholdFlags) (pct : ℚ) (sv it : ℕ) :
    Event.progress sv it ∉ (check_memory_thresholds f pct).2 := by
  rw [check_memory_thresholds_snd]; split_ifs <;> simp

/-- Membership in a conditional singleton list. -/
lemma mem_ite_singleton {α : Type _} (c : Prop) [Decidable c] (a b : α) :
    (a ∈ (if c then [b] else ([] : List α))) ↔ c ∧ a = b := by
  split_ifs with h <;> simp [h]

/-- Event list of a successful tick, spelled out. -/
lemma tick_ok_events (cs : ℕ) (s : DriverState) (sp : MemStats) (lim : ℚ)
    (spo fs : MemStats) (st : Bool) :
    (tick cs s ⟨sp, lim, AllocOutcome.ok, spo, fs, st⟩).2 =
      (check_memory_thresholds s.flags
        (container_memory_percent sp.process_rss_mb lim)).2 ++
      (if 60 ≤ container_memory_percent sp.process_rss_mb lim ∧
          s.paused60 = false
       then [Event.paused 3 60 (s.iteration + 1) s.ledger.length] else []) ++
      (if 80 ≤ container_memory_percent sp.process_rss_mb lim ∧
          s.paused80 = false
       then [Event.paused 4 80 (s.iteration + 1) s.ledger.length] else []) ++
      (if (s.iteration + 1) % 3 = 0 ∨
          80 ≤ container_memory_percent spo.process_rss_mb lim ∨
          5 ≤ (s.iteration + 1) - s.lastLog
       then [Event.progress
          (if 95 ≤ container_memory_percent spo.process_rss_mb lim then 6
           else if 90 ≤ container_memory_percent spo.process_rss_mb lim then 5
           else if 80 ≤ container_memory_percent spo.process_rss_mb lim then 4
           else 3)
          (s.iteration + 1)] else []) := rfl

/-- Membership of a progress event in a successful tick's emissions: it
appears exactly when the source's `should_log` gate is open, for the current
iteration, with the severity derived from the post-allocation usage. -/
lemma tick_progress_mem (cs : ℕ) (s : DriverState) (sp : MemStats) (lim : ℚ)
    (spo fs : MemStats) (st : Bool) (sv it : ℕ) :
    Event.progress sv it ∈
        (tick cs s ⟨sp, lim, AllocOutcome.ok, spo, fs, st⟩).2 ↔
      ((s.iteration + 1) % 3 = 0 ∨
        80 ≤ container_memory_percent spo.process_rss_mb lim ∨
        5 ≤ (s.iteration + 1) - s.lastLog) ∧
      it = s.iteration + 1 ∧
      sv = (if 95 ≤ container_memory_percent spo.process_rss_mb lim then 6
            else if 90 ≤ container_memory_percent spo.process_rss_mb lim then 5
            else if 80 ≤ container_memory_percent spo.process_rss_mb lim then 4
            else 3) := by
  rw [tick_ok_events]
  simp only [List.mem_append, mem_ite_singleton, progress_notin_check]
  simp
  tauto

/-- Claim C9: on every successful allocation tick from a reachable loop
state, a progress notification is emitted exactly when the iteration is a
multiple of 3, or the post-allocation usage is at least 80%, or more than 5
iterations passed since the last emission (a disjunct that is never live,
since the multiple-of-3 gate keeps the gap at most 3 — so the source's
`>= 5` test and the claim's "more than 5" agree on every reachable state);
its severity is derived from the post-allocation percentage
(95 → 6, 90 → 5, 80 → 4, else 3).  The invariant holds initially and is
preserved by successful ticks. -/
theorem C9_progress_notifications :
    (∀ f0 : ThresholdFlags, LogInv (initDriver f0)) ∧
    (∀ (cs : ℕ) (s : DriverState) (inp : TickInput),
      inp.outcome = AllocOutcome.ok → LogInv s → LogInv (tick cs s inp).1) ∧
    (∀ (cs : ℕ) (s : DriverState) (inp : TickInput),
      inp.outcome = AllocOutcome.ok → LogInv s →
      ((∃ sv, Event.progress sv (s.iteration + 1) ∈ (tick cs s inp).2) ↔
        ((s.iteration + 1) % 3 = 0 ∨
         80 ≤ container_memory_percent inp.statsPost.process_rss_mb inp.limit ∨
         5 < (s.iteration + 1) - s.lastLog))) ∧
    (∀ (cs : ℕ) (s : DriverState) (inp : TickInput) (sv it : ℕ),
      inp.outcome = AllocOutcome.ok →
      Event.progress sv it ∈ (tick cs s inp).2 →
      it = s.iteration + 1 ∧
      sv = (if 95 ≤ container_memory_percent inp.statsPost.process_rss_mb inp.limit
            then 6
            else if 90 ≤ container_memory_percent inp.statsPost.process_rss_mb inp.limit
            then 5
            else if 80 ≤ container_memory_percent inp.statsPost.process_rss_mb inp.limit
            then 4
            else 3)) := by
  refine ⟨?_, ?_, ?_, ?_⟩
  · intro f0
    refine ⟨Nat.le_refl 0, fun j h1 h2 => ?_⟩
    have h1' : 0 < j := h1
    have h2' : j ≤ 0 := h2
    omega
  · intro cs s inp ho hinv
    obtain ⟨sp, lim, o, spo, fs, st⟩ := inp
    simp only at ho
    subst ho
    obtain ⟨h1, h2⟩ := hinv
    have hit : (tick cs s ⟨sp, lim, AllocOutcome.ok, spo, fs, st⟩).1.iteration =
        s.iteration + 1 := rfl
    have hll : (tick cs s ⟨sp, lim, AllocOutcome.ok, spo, fs, st⟩).1.lastLog =
        if (s.iteration + 1) % 3 = 0 ∨
            80 ≤ container_memory_percent spo.process_rss_mb lim ∨
            5 ≤ (s.iteration + 1) - s.lastLog
        then s.iteration + 1 else s.lastLog := rfl
    constructor
    · rw [hit, hll]
      split_ifs
      · exact Nat.le_refl _
      · omega
    · intro j hj1 hj2
      rw [hit] at hj2
      rw [hll] at hj1
      split_ifs at hj1 with h
      · omega
      · rcases Nat.lt_or_ge j (s.iteration + 1) with hj | hj
        · exact h2 j hj1 (by omega)
        · have hje : j = s.iteration + 1 := by omega
          subst hje
          intro hmod
          exact h (Or.inl hmod)
  · intro cs s inp ho hinv
    obtain ⟨sp, lim, o, spo, fs, st⟩ := inp
    simp only at ho
    subst ho
    have hgap := LogInv_gap hinv
    have h1 := hinv.1
    constructor
    · rintro ⟨sv, hsv⟩
      rcases (tick_progress_mem cs s sp lim spo fs st sv (s.iteration + 1)).mp hsv
        with ⟨hc, -, -⟩
      rcases hc with hc | hc | hc
      · exact Or.inl hc
      · exact Or.inr (Or.inl hc)
      · exact absurd hc (by omega)
    · intro hc
      refine ⟨_, (tick_progress_mem cs s sp lim spo fs st _ (s.iteration + 1)).mpr
        ⟨?_, rfl, rfl⟩⟩
      rcases hc with hc | hc | hc
      · exact Or.inl hc
      · exact Or.inr (Or.inl hc)
      · exact absurd hc (by omega)
  · intro cs s inp sv it ho hm
    obtain ⟨sp, lim, o, spo, fs, st⟩ := inp
    simp only at ho
    subst ho
    exact ((tick_progress_mem cs s sp lim spo fs st sv it).mp hm).2

/-- Witness for C9: the first tick of a fresh run whose post-allocation
usage is 90% emits a progress notification. -/
theorem C9_progress_notifications_witness :
    (okTick 10 90 100).outcome = AllocOutcome.ok ∧
    LogInv (initDriver ⟨false, false, false⟩) ∧
    (∃ sv, Event.progress sv 1 ∈
      (tick 5 (initDriver ⟨false, false, false⟩) (okTick 10 90 100)).2) := by
  refine ⟨rfl, C9_progress_notifications.1 ⟨false, false, false⟩, ?_⟩
  exact (C9_progress_notifications.2.2.1 5 (initDriver ⟨false, false, false⟩)
      (okTick 10 90 100) rfl (C9_progress_notifications.1 ⟨false, false, false⟩)).mpr
    (Or.inr (Or.inl (by norm_num [container_memory_percent, okTick, mkStats])))

/-- Threshold evaluation emits no completion events. -/
lemma completed_notin_check (f : ThresholdFlags) (pct : ℚ) (r : String)
    (i c : ℕ) : Event.completed r i c ∉ (check_memory_thresholds f pct).2 := by
  rw [check_memory_thresholds_snd]; split_ifs <;> simp

/-- No tick emits a completion event: the completion log only comes from
the code after the loop. -/
lemma tick_no_completed (cs : ℕ) (s : DriverState) (inp : TickInput)
    (r : String) (i c : ℕ) : Event.completed r i c ∉ (tick cs s inp).2 := by
  obtain ⟨sp, lim, o, spo, fs, st⟩ := inp
  cases o <;> simp [tick, List.mem_append, completed_notin_check]

/-- Every completion event of a run carries the reason "OOM". -/
lemma loopRun_completed_oom (cs : ℕ) :
    ∀ (inputs : List TickInput) (s : DriverState) (r : String) (i c : ℕ),
      Event.completed r i c ∈ (loopRun cs s inputs).2 → r = "OOM" := by
  intro inputs
  induction inputs with
  | nil =>
    intro s r i c h
    cases hr : s.running
    · simp [loopRun, hr, finalEvent] at h
      exact h.1
    · simp [loopRun, hr] at h
  | cons inp rest ih =>
    intro s r i c h
    cases hr : s.running
    · rw [loopRun_not_running cs s (inp :: rest) hr] at h
      simp [finalEvent, hr] at h
      exact h.1
    · simp only [loopRun, hr, if_true] at h
      rcases List.mem_append.mp h with h' | h'
      · exact absurd h' (tick_no_completed cs s inp r i c)
      · exact ih _ _ _ _ h'

/-- Claim C10: whenever the allocation loop exits, the final "Memory test
completed or stopped" log reports reason "OOM": the loop only exits once
the running flag is false, the reason is computed as "OOM" exactly when the
flag is false, and hence no trace of the loop ever contains a completion
event with the "Stopped" reason. -/
theorem C10_final_reason_always_oom :
    (∀ s : DriverState,
      (finalEvent s = Event.completed "OOM" s.iteration s.ledger.length ↔
        s.running = false)) ∧
    (∀ (cs : ℕ) (s : DriverState) (inputs : List TickInput),
      s.running = false → loopRun cs s inputs = (s, [finalEvent s])) ∧
    (∀ (limit : ℚ) (f0 : ThresholdFlags) (inputs : List TickInput)
        (reason : String) (i c : ℕ),
      Event.completed reason i c ∈
        (consume_memory_gradually limit f0 inputs).2 →
      reason = "OOM") := by
  refine ⟨?_, fun cs s inputs h => loopRun_not_running cs s inputs h, ?_⟩
  · intro s
    cases hr : s.running <;> simp [finalEvent, hr]
  · intro limit f0 inputs reason i c h
    simp only [consume_memory_gradually, List.mem_cons] at h
    rcases h with h | h
    · cases h
    · exact loopRun_completed_oom (chunk_size limit) inputs (initDriver f0)
        reason i c h

/-- Witness for C10: a run stopped externally during its first tick still
completes with reason "OOM". -/
theorem C10_final_reason_always_oom_witness :
    Event.completed "OOM" 1 0 ∈
      (consume_memory_gradually 100 ⟨false, false, false⟩
        [⟨mkStats 10, 100, AllocOutcome.ok, mkStats 10, mkStats 0, true⟩]).2 ∧
    ("OOM" : String) = "OOM" := by
  have h10 : container_memory_percent (mkStats 10).process_rss_mb 100 = 10 := by
    norm_num [container_memory_percent, mkStats]
  have hm : Event.completed "OOM" 1 0 ∈
      (consume_memory_gradually 100 ⟨false, false, false⟩
        [⟨mkStats 10, 100, AllocOutcome.ok, mkStats 10, mkStats 0, true⟩]).2 := by
    simp only [consume_memory_gradually, loopRun, tick, initDriver, h10]
    norm_num [check_memory_thresholds, finalEvent]
  exact ⟨hm, C10_final_reason_always_oom.2.2 100 ⟨false, false, false⟩
    [⟨mkStats 10, 100, AllocOutcome.ok, mkStats 10, mkStats 0, true⟩]
    "OOM" 1 0 hm⟩

end MemApp
